import Mathlib

/-!
Shallow embedding of the pytorch-shepherd agent (workflow state machine,
controller step behavior, state persistence, LLM client, HUD client) and
proofs about its specification claims.

Conventions used throughout:
* Python `datetime` instants are modelled as natural numbers (an abstract
  strictly increasing clock); `datetime.isoformat` / `fromisoformat` are
  modelled as the decimal representation pair, which shares the relevant
  property of the stdlib pair: decoding inverts encoding.
* Python dictionaries / JSON payloads are modelled by the `Json` inductive
  below; machine integers are `Int` (Python ints are unbounded).
* Fallible Python code is modelled with `Option` / `Except`.
-/

/-! ## String helpers (List Char based, mirroring Python `str` operations) -/

/-- `listHasPrefix pat s` : does `s` start with `pat`? (`str.startswith`). -/
def listHasPrefix : List Char → List Char → Bool
  | [], _ => true
  | _ :: _, [] => false
  | p :: ps, c :: cs => p = c && listHasPrefix ps cs

/-- `listHasSuffix pat s` : does `s` end with `pat`? (`str.endswith`). -/
def listHasSuffix (pat s : List Char) : Bool :=
  listHasPrefix pat.reverse s.reverse

/-- `listContainsSub pat s` : does `pat` occur as a contiguous substring of
`s`? (Python `pat in s`). -/
def listContainsSub (pat : List Char) : List Char → Bool
  | [] => listHasPrefix pat []
  | c :: cs => listHasPrefix pat (c :: cs) || listContainsSub pat cs

/-- Lower-case a string character-wise, modelling `re.IGNORECASE` matching
of the all-lower-case patterns in the source (ASCII case folding). -/
def lowerStr (s : List Char) : List Char := s.map Char.toLower

/-! ## JSON values

Model of the JSON payloads the program passes around (`dict` / `list` /
`str` / `int` / `bool` / `None`). Numbers are restricted to integers,
which covers every field the claims touch. -/

inductive Json where
  | null : Json
  | bool : Bool → Json
  | num : Int → Json
  | str : String → Json
  | arr : List Json → Json
  | obj : List (String × Json) → Json

/-- Python truthiness of a JSON value (`if not analysis: ...`):
`None`, `False`, `0`, `""`, `[]` and `{}` are falsy. -/
def Json.truthy : Json → Bool
  | .null => false
  | .bool b => b
  | .num n => n != 0
  | .str s => s != ""
  | .arr l => !l.isEmpty
  | .obj l => !l.isEmpty

/-- Association-list lookup used for JSON objects: first binding wins. -/
def Json.lookupField : List (String × Json) → String → Option Json
  | [], _ => none
  | (k, v) :: rest, key =>
      if k = key then some v else Json.lookupField rest key

/-- Dictionary lookup, `d.get(key)` / `d[key]`. -/
def Json.getField : Json → String → Option Json
  | .obj fields, key => Json.lookupField fields key
  | _, _ => none

/-! ## Workflow state machine (src/agent/workflow.py) -/

/-- `IssueState` enumeration (workflow.py lines 10-20). -/
inductive IssueState where
  | FETCHING
  | ANALYZING
  | FIXING
  | CREATING_PR
  | MONITORING
  | ADDRESSING_REVIEWS
  | COMPLETED
  | FAILED
  | PAUSED
deriving Repr, DecidableEq

/-- The `.value` string of each `IssueState` member. -/
def IssueState.value : IssueState → String
  | .FETCHING => "fetching"
  | .ANALYZING => "analyzing"
  | .FIXING => "fixing"
  | .CREATING_PR => "creating_pr"
  | .MONITORING => "monitoring"
  | .ADDRESSING_REVIEWS => "addressing_reviews"
  | .COMPLETED => "completed"
  | .FAILED => "failed"
  | .PAUSED => "paused"

/-- `IssueState(value)` enum construction from the stored string. -/
def IssueState.ofValue (s : String) : Option IssueState :=
  if s = "fetching" then some .FETCHING
  else if s = "analyzing" then some .ANALYZING
  else if s = "fixing" then some .FIXING
  else if s = "creating_pr" then some .CREATING_PR
  else if s = "monitoring" then some .MONITORING
  else if s = "addressing_reviews" then some .ADDRESSING_REVIEWS
  else if s = "completed" then some .COMPLETED
  else if s = "failed" then some .FAILED
  else if s = "paused" then some .PAUSED
  else none

/-- `WorkflowContext` (workflow.py lines 23-37). Timestamps are abstract
clock values (`Nat`); structured records are `Json`. -/
structure WorkflowContext where
  issue_number : Int
  repo : String
  issue_data : Option Json := none
  pr_number : Option Int := none
  branch_name : Option String := none
  fix_attempt_count : Nat := 0
  last_check_time : Option Nat := none
  failing_tests : List Json := []
  review_comments : List Json := []
  generated_files : List String := []
  error_history : List String := []
  metadata : List (String × Json) := []

/-- `WorkflowEngine._has_review_comments` (workflow.py lines 196-198). -/
def has_review_comments (ctx : WorkflowContext) : Bool :=
  0 < ctx.review_comments.length

/-- `WorkflowEngine._has_failing_tests` (workflow.py lines 200-202). -/
def has_failing_tests (ctx : WorkflowContext) : Bool :=
  0 < ctx.failing_tests.length

/-- `WorkflowEngine._is_ready_for_completion` (workflow.py lines 204-211). -/
def is_ready_for_completion (ctx : WorkflowContext) : Bool :=
  ctx.failing_tests.length = 0 && ctx.review_comments.length = 0 &&
    ctx.pr_number.isSome

/-- `WorkflowEngine._should_continue_monitoring` (workflow.py lines 213-220):
true when no check has happened yet, or when fewer than
`monitoring_interval` seconds have elapsed since `last_check_time`.
`now` is the value of `datetime.now()` at the call. -/
def should_continue_monitoring (monitoring_interval : Int) (now : Nat)
    (ctx : WorkflowContext) : Bool :=
  match ctx.last_check_time with
  | none => true
  | some t => (now : Int) - (t : Int) < monitoring_interval

/-- `WorkflowEngine.get_valid_transitions` (workflow.py lines 62-130):
the transition table, with each guarded target included exactly when its
guard holds, in table order. -/
def get_valid_transitions (max_attempts : Nat) (current_state : IssueState)
    (ctx : WorkflowContext) : List IssueState :=
  match current_state with
  | .FETCHING => [.ANALYZING, .FAILED]
  | .ANALYZING => [.FIXING, .FAILED]
  | .FIXING =>
      [.CREATING_PR] ++
      (if max_attempts ≤ ctx.fix_attempt_count then [.FAILED] else []) ++
      [.FIXING]
  | .CREATING_PR => [.MONITORING, .FAILED]
  | .MONITORING =>
      (if has_review_comments ctx then [.ADDRESSING_REVIEWS] else []) ++
      (if has_failing_tests ctx then [.ADDRESSING_REVIEWS] else []) ++
      (if is_ready_for_completion ctx then [.COMPLETED] else []) ++
      [.MONITORING]
  | .ADDRESSING_REVIEWS =>
      [.MONITORING] ++
      (if max_attempts ≤ ctx.fix_attempt_count then [.FAILED] else [])
  | .COMPLETED => []
  | .FAILED => []
  | .PAUSED => [.FETCHING, .ANALYZING, .FIXING, .MONITORING, .ADDRESSING_REVIEWS]

/-- `WorkflowEngine.is_terminal_state` (workflow.py lines 192-194). -/
def is_terminal_state (state : IssueState) : Bool :=
  state = IssueState.COMPLETED || state = IssueState.FAILED

/-- `WorkflowEngine.get_next_state` (workflow.py lines 136-172): `None` when
no transition is valid, then the explicit resolution policy for
`MONITORING` / `FIXING` / `ADDRESSING_REVIEWS`, then the first valid
transition. `now` is the value of `datetime.now()` inside
`_should_continue_monitoring`. -/
def get_next_state (max_attempts : Nat) (monitoring_interval : Int) (now : Nat)
    (current_state : IssueState) (ctx : WorkflowContext) : Option IssueState :=
  let valid := get_valid_transitions max_attempts current_state ctx
  if valid.isEmpty then none
  else if current_state = .MONITORING then
    if has_review_comments ctx || has_failing_tests ctx then
      some .ADDRESSING_REVIEWS
    else if is_ready_for_completion ctx then some .COMPLETED
    else if should_continue_monitoring monitoring_interval now ctx then
      some .MONITORING
    else some .COMPLETED
  else if current_state = .FIXING then
    if max_attempts ≤ ctx.fix_attempt_count then some .FAILED
    else if ctx.pr_number = none then some .CREATING_PR
    else some .MONITORING
  else if current_state = .ADDRESSING_REVIEWS then
    if max_attempts ≤ ctx.fix_attempt_count then some .FAILED
    else some .MONITORING
  else valid.head?

/-! ## Controller run loop (src/agent/controller.py)

The per-state actions (`_execute_current_state`, lines 392-415) mutate the
context; external data (issue payloads, PR numbers, test results, clock
readings) is nondeterministic, so the action is a relation. Only the
successful path of each action is modelled: an action that raises aborts
the run loop before any further transition (controller.py lines 237-243,
412-415), so no further step occurs. -/

/-- Effect of executing one state action on the context:
* `_fetch_issue` (lines 453-469) stores the issue snapshot;
* `_analyze_issue` (lines 471-494) rewrites `metadata`;
* `_fix_issue` (lines 496-541) increments `fix_attempt_count`, derives
  `branch_name` as `fix-issue-<issue>-attempt-<count>`, and records the
  validated changed files;
* `_create_pull_request` (lines 652-759) stores a PR number;
* `_monitor_progress` (lines 761-792) stamps `last_check_time` and
  replaces `failing_tests` / `review_comments` with fresh data;
* `_address_reviews` (lines 794-838) increments `fix_attempt_count` and
  clears `review_comments` / `failing_tests`;
* `PAUSED` has no handler (line 409-410): the context is unchanged. -/
inductive ExecStep : IssueState → WorkflowContext → WorkflowContext → Prop
  | fetching (ctx : WorkflowContext) (d : Json) :
      ExecStep .FETCHING ctx { ctx with issue_data := some d }
  | analyzing (ctx : WorkflowContext) (md : List (String × Json)) :
      ExecStep .ANALYZING ctx { ctx with metadata := md }
  | fixing (ctx : WorkflowContext) (fs : List String) :
      ExecStep .FIXING ctx
        { ctx with
          fix_attempt_count := ctx.fix_attempt_count + 1
          branch_name := some ("fix-issue-" ++ toString ctx.issue_number ++
            "-attempt-" ++ toString (ctx.fix_attempt_count + 1))
          generated_files := fs }
  | creating_pr (ctx : WorkflowContext) (n : Int) :
      ExecStep .CREATING_PR ctx { ctx with pr_number := some n }
  | monitoring (ctx : WorkflowContext) (t : Nat) (ft rc : List Json) :
      ExecStep .MONITORING ctx
        { ctx with
          last_check_time := some t
          failing_tests := ft
          review_comments := rc }
  | addressing (ctx : WorkflowContext) :
      ExecStep .ADDRESSING_REVIEWS ctx
        { ctx with
          fix_attempt_count := ctx.fix_attempt_count + 1
          review_comments := []
          failing_tests := [] }
  | paused (ctx : WorkflowContext) : ExecStep .PAUSED ctx ctx

/-- One iteration of the controller's main loop (controller.py lines
237-241): the loop runs only in non-terminal states, executes the current
state's action, then `_transition_to_next_state` (lines 417-430) adopts the
computed next state, staying put when the engine returns `None` or the same
state. -/
inductive Step (max_attempts : Nat) (monitoring_interval : Int) :
    IssueState × WorkflowContext → IssueState × WorkflowContext → Prop
  | mk (s : IssueState) (ctx ctx' : WorkflowContext) (now : Nat)
      (hterm : is_terminal_state s = false)
      (hexec : ExecStep s ctx ctx') :
      Step max_attempts monitoring_interval (s, ctx)
        ((get_next_state max_attempts monitoring_interval now s ctx').getD s,
          ctx')

/-- Fresh context created by `_load_or_create_state` (controller.py lines
383-390). -/
def initial_context (issue : Int) (repo : String) : WorkflowContext :=
  { issue_number := issue, repo := repo }

/-- Configurations of the controller reachable from a fresh start by the
run loop. -/
inductive Reach (max_attempts : Nat) (monitoring_interval : Int)
    (issue : Int) (repo : String) : IssueState × WorkflowContext → Prop
  | init : Reach max_attempts monitoring_interval issue repo
      (.FETCHING, initial_context issue repo)
  | step {p q : IssueState × WorkflowContext} :
      Reach max_attempts monitoring_interval issue repo p →
      Step max_attempts monitoring_interval p q →
      Reach max_attempts monitoring_interval issue repo q

/-! Next-state characterizations, one per state, read off `get_next_state`. -/

lemma next_state_fetching (m : Nat) (mi : Int) (now : Nat)
    (ctx : WorkflowContext) :
    get_next_state m mi now .FETCHING ctx = some .ANALYZING := by
  simp [get_next_state, get_valid_transitions]

lemma next_state_analyzing (m : Nat) (mi : Int) (now : Nat)
    (ctx : WorkflowContext) :
    get_next_state m mi now .ANALYZING ctx = some .FIXING := by
  simp [get_next_state, get_valid_transitions]

lemma next_state_creating_pr (m : Nat) (mi : Int) (now : Nat)
    (ctx : WorkflowContext) :
    get_next_state m mi now .CREATING_PR ctx = some .MONITORING := by
  simp [get_next_state, get_valid_transitions]

lemma next_state_paused (m : Nat) (mi : Int) (now : Nat)
    (ctx : WorkflowContext) :
    get_next_state m mi now .PAUSED ctx = some .FETCHING := by
  simp [get_next_state, get_valid_transitions]

lemma next_state_fixing (m : Nat) (mi : Int) (now : Nat)
    (ctx : WorkflowContext) :
    get_next_state m mi now .FIXING ctx =
      some (if m ≤ ctx.fix_attempt_count then .FAILED
        else if ctx.pr_number = none then .CREATING_PR else .MONITORING) := by
  have h : (get_valid_transitions m .FIXING ctx).isEmpty = false := by
    simp [get_valid_transitions]
  simp only [get_next_state, h]
  split_ifs <;> simp_all

lemma next_state_addressing (m : Nat) (mi : Int) (now : Nat)
    (ctx : WorkflowContext) :
    get_next_state m mi now .ADDRESSING_REVIEWS ctx =
      some (if m ≤ ctx.fix_attempt_count then .FAILED else .MONITORING) := by
  have h : (get_valid_transitions m .ADDRESSING_REVIEWS ctx).isEmpty = false := by
    simp [get_valid_transitions]
  simp only [get_next_state, h]
  split_ifs <;> simp_all

lemma next_state_monitoring (m : Nat) (mi : Int) (now : Nat)
    (ctx : WorkflowContext) :
    get_next_state m mi now .MONITORING ctx =
      some (if has_review_comments ctx || has_failing_tests ctx then
          .ADDRESSING_REVIEWS
        else if is_ready_for_completion ctx then .COMPLETED
        else if should_continue_monitoring mi now ctx then .MONITORING
        else .COMPLETED) := by
  have h : (get_valid_transitions m .MONITORING ctx).isEmpty = false := by
    simp only [get_valid_transitions]
    split_ifs <;> simp
  simp only [get_next_state, h]
  split_ifs <;> simp_all

/-- Inductive invariant of the run loop: outside `FAILED`, the attempt
counter is strictly below the budget; in `FAILED` it is at most the
budget. -/
lemma reach_attempt_invariant (m : Nat) (mi : Int) (issue : Int)
    (repo : String) (hm : 1 ≤ m) (p : IssueState × WorkflowContext)
    (h : Reach m mi issue repo p) :
    (p.1 = .FAILED → p.2.fix_attempt_count ≤ m) ∧
      (p.1 ≠ .FAILED → p.2.fix_attempt_count < m) := by
  induction h with
  | init =>
    refine ⟨(fun h => nomatch h), (fun _ => ?_)⟩
    simpa [initial_context] using hm
  | step hprev hstep ih =>
    cases hstep with
    | mk s ctx ctx' now hterm hexec =>
      have hcount : ctx.fix_attempt_count < m := by
        apply ih.2
        intro hs
        have hs' : s = IssueState.FAILED := hs
        rw [hs'] at hterm
        simp [is_terminal_state] at hterm
      cases hexec with
      | fetching ctx d =>
        rw [next_state_fetching]
        exact ⟨(fun h => nomatch h), (fun _ => hcount)⟩
      | analyzing ctx md =>
        rw [next_state_analyzing]
        exact ⟨(fun h => nomatch h), (fun _ => hcount)⟩
      | fixing ctx fs =>
        rw [next_state_fixing]
        split_ifs with h1 <;>
          refine ⟨fun h => ?_, fun h => ?_⟩ <;> simp_all
        omega
      | creating_pr ctx n =>
        rw [next_state_creating_pr]
        exact ⟨(fun h => nomatch h), (fun _ => hcount)⟩
      | monitoring ctx t ft rc =>
        rw [next_state_monitoring]
        split_ifs <;>
          exact ⟨(fun h => nomatch h), (fun _ => hcount)⟩
      | addressing ctx =>
        rw [next_state_addressing]
        split_ifs with h1 <;>
          refine ⟨fun h => ?_, fun h => ?_⟩ <;> simp_all
        omega
      | paused ctx =>
        rw [next_state_paused]
        exact ⟨(fun h => nomatch h), (fun _ => hcount)⟩

/-- C1: over any run of the controller loop (with an attempt budget of at
least one), `fix_attempt_count` never exceeds `max_attempts`; and for every
context whose `fix_attempt_count` has reached `max_attempts`, the next
state computed from `FIXING` and from `ADDRESSING_REVIEWS` is `FAILED`. -/
theorem C1_attempt_budget (m : Nat) (mi : Int) (issue : Int) (repo : String)
    (s : IssueState) (ctx : WorkflowContext) (hm : 1 ≤ m)
    (h : Reach m mi issue repo (s, ctx)) :
    ctx.fix_attempt_count ≤ m ∧
    (∀ (ctx2 : WorkflowContext) (now : Nat),
      ctx2.fix_attempt_count = m →
      get_next_state m mi now .FIXING ctx2 = some .FAILED ∧
      get_next_state m mi now .ADDRESSING_REVIEWS ctx2 = some .FAILED) := by
  constructor
  · have hinv := reach_attempt_invariant m mi issue repo hm (s, ctx) h
    by_cases hs : s = IssueState.FAILED
    · exact hinv.1 hs
    · exact le_of_lt (hinv.2 hs)
  · intro ctx2 now h2
    rw [next_state_fixing, next_state_addressing]
    simp [h2]

/-- Witness for `C1_attempt_budget` at the initial configuration with
budget 3 and a context that has exhausted its attempts. -/
theorem C1_attempt_budget_witness :
    (initial_context 1 "pytorch/pytorch").fix_attempt_count ≤ 3 ∧
    (get_next_state 3 18000 0 .FIXING
        { issue_number := 1, repo := "pytorch/pytorch",
          fix_attempt_count := 3 } = some .FAILED ∧
      get_next_state 3 18000 0 .ADDRESSING_REVIEWS
        { issue_number := 1, repo := "pytorch/pytorch",
          fix_attempt_count := 3 } = some .FAILED) :=
  ⟨(C1_attempt_budget 3 18000 1 "pytorch/pytorch" .FETCHING
      (initial_context 1 "pytorch/pytorch") (by decide) Reach.init).1,
    (C1_attempt_budget 3 18000 1 "pytorch/pytorch" .FETCHING
      (initial_context 1 "pytorch/pytorch") (by decide) Reach.init).2
      { issue_number := 1, repo := "pytorch/pytorch",
        fix_attempt_count := 3 } 0 rfl⟩

/-- C2: from `MONITORING`, `get_next_state` returns `ADDRESSING_REVIEWS`
when the context has at least one review comment or at least one failing
test; otherwise `COMPLETED` when both lists are empty and a PR number is
set; otherwise `MONITORING` when no check has happened yet or fewer than
`monitoring_interval` seconds have elapsed since `last_check_time`; and
otherwise `COMPLETED`. -/
theorem C2_monitoring_routing (m : Nat) (mi : Int) (now : Nat)
    (ctx : WorkflowContext) :
    get_next_state m mi now .MONITORING ctx =
      some (if 0 < ctx.review_comments.length ∨ 0 < ctx.failing_tests.length
        then .ADDRESSING_REVIEWS
        else if ctx.pr_number.isSome then .COMPLETED
        else
          match ctx.last_check_time with
          | none => .MONITORING
          | some t =>
              if (now : Int) - (t : Int) < mi then .MONITORING
              else .COMPLETED) := by
  rw [next_state_monitoring]
  rcases hrc : ctx.review_comments with _ | ⟨c, cs⟩ <;>
    rcases hft : ctx.failing_tests with _ | ⟨f, fs⟩ <;>
    rcases hpr : ctx.pr_number with _ | n <;>
    rcases hlc : ctx.last_check_time with _ | t <;>
    simp [has_review_comments, has_failing_tests, is_ready_for_completion,
      should_continue_monitoring, hrc, hft, hpr, hlc]

/-- C3: `get_valid_transitions` is empty exactly for `COMPLETED` and
`FAILED` (so it is non-empty for every other state, whatever the context),
and `is_terminal_state` holds for exactly those two states. -/
theorem C3_terminal_states (m : Nat) (ctx : WorkflowContext)
    (s : IssueState) :
    (get_valid_transitions m s ctx = [] ↔
      s = .COMPLETED ∨ s = .FAILED) ∧
    (is_terminal_state s = true ↔ s = .COMPLETED ∨ s = .FAILED) := by
  cases s <;>
    constructor <;>
    simp [get_valid_transitions, is_terminal_state]

/-! ## Unwanted-file filtering (controller.py lines 947-994)

Each regex of `unwanted_patterns` is `re.match`-ed (anchored at the start
of the path) case-insensitively. Translations, in source order:
* `test_.*\.py$`    : starts with `test_` and ends with `.py`;
* `.*_test\.py$`    : ends with `_test.py`;
* `.*/test/.*\.py$` : contains `/test/` and ends with `.py`;
* `.*X.*\.py$`      : contains `X` and ends with `.py`, for `X` among
  `test`, `example`, `demo`, `standalone`, `usage`, `rope`, `basic`,
  `validation`.
Case-insensitivity is modelled by lower-casing the path (the patterns are
all lower-case). -/
def unwanted_patterns : List (List Char → Bool) :=
  [ fun s => listHasPrefix "test_".data s && listHasSuffix ".py".data s,
    fun s => listHasSuffix "_test.py".data s,
    fun s => listContainsSub "/test/".data s && listHasSuffix ".py".data s,
    fun s => listContainsSub "test".data s && listHasSuffix ".py".data s,
    fun s => listContainsSub "example".data s && listHasSuffix ".py".data s,
    fun s => listContainsSub "demo".data s && listHasSuffix ".py".data s,
    fun s => listContainsSub "standalone".data s && listHasSuffix ".py".data s,
    fun s => listContainsSub "usage".data s && listHasSuffix ".py".data s,
    fun s => listContainsSub "rope".data s && listHasSuffix ".py".data s,
    fun s => listContainsSub "basic".data s && listHasSuffix ".py".data s,
    fun s => listContainsSub "validation".data s && listHasSuffix ".py".data s ]

/-- The per-file check of `_validate_and_cleanup_files`: the inner pattern
loop (with its `break` on first match) marks the file unwanted iff some
pattern matches. -/
def is_unwanted (file_path : String) : Bool :=
  unwanted_patterns.any fun p => p (lowerStr file_path.data)

/-- `IssueFixingAgent._validate_and_cleanup_files` (controller.py lines
947-994), restricted to its return value (the on-disk deletion and git
un-staging of dropped files are side effects outside the data model). -/
def validate_and_cleanup_files : List String → List String
  | [] => []
  | f :: rest =>
      if is_unwanted f then validate_and_cleanup_files rest
      else f :: validate_and_cleanup_files rest

/-- C8: unwanted-file filtering drops exactly the paths matching the
scratch/test patterns, retaining all others in order; on the spec's
example list it retains exactly `src/fix.py` and `models/layer.py`. -/
theorem C8_unwanted_file_filtering :
    (∀ files : List String,
      validate_and_cleanup_files files =
        files.filter fun f => !is_unwanted f) ∧
    validate_and_cleanup_files
        ["src/fix.py", "test_foo.py", "demo_usage.py", "models/layer.py"] =
      ["src/fix.py", "models/layer.py"] := by
  constructor
  · intro files
    induction files with
    | nil => rfl
    | cons f rest ih =>
      by_cases h : is_unwanted f <;>
        simp [validate_and_cleanup_files, List.filter, h, ih]
  · decide

/-! ## State persistence (src/agent/state_manager.py)

`datetime` instants are abstract clock values (`Nat`); the
`isoformat`/`fromisoformat` pair of the stdlib is modelled by a decimal
codec, which shares the property the persistence layer relies on:
`fromisoformat (isoformat t) = t`, and distinct instants render as
distinct strings. -/

/-- Decimal digit to its character. -/
def digitToChar : Nat → Char
  | 0 => '0' | 1 => '1' | 2 => '2' | 3 => '3' | 4 => '4'
  | 5 => '5' | 6 => '6' | 7 => '7' | 8 => '8' | _ => '9'

/-- Character back to its decimal digit value. -/
def charToDigit (c : Char) : Nat := c.toNat - 48

/-- Little-endian decimal digits of a natural number (empty for 0). -/
def natDigitsRev (n : Nat) : List Nat :=
  if h : n = 0 then []
  else (n % 10) :: natDigitsRev (n / 10)
decreasing_by exact Nat.div_lt_self (Nat.pos_of_ne_zero h) (by norm_num)

/-- Value of a little-endian digit list. -/
def natFromDigitsRev : List Nat → Nat
  | [] => 0
  | d :: ds => d + 10 * natFromDigitsRev ds

/-- Model of `datetime.isoformat`: decimal rendering of the instant. -/
def isoformat (t : Nat) : String :=
  if t = 0 then "0"
  else String.mk ((natDigitsRev t).reverse.map digitToChar)

/-- Model of `datetime.fromisoformat`: parses the decimal rendering,
failing on anything else. -/
def fromisoformat (s : String) : Option Nat :=
  if s.data.isEmpty then none
  else if s.data.all Char.isDigit then
    some (natFromDigitsRev ((s.data.map charToDigit).reverse))
  else none

lemma natFromDigitsRev_natDigitsRev (n : Nat) :
    natFromDigitsRev (natDigitsRev n) = n := by
  induction n using Nat.strong_induction_on with
  | _ n ih =>
    rw [natDigitsRev]
    split_ifs with h
    · simp [natFromDigitsRev, h]
    · rw [natFromDigitsRev,
        ih (n / 10) (Nat.div_lt_self (Nat.pos_of_ne_zero h) (by norm_num))]
      omega

lemma natDigitsRev_lt_ten (n : Nat) : ∀ d ∈ natDigitsRev n, d < 10 := by
  induction n using Nat.strong_induction_on with
  | _ n ih =>
    rw [natDigitsRev]
    split_ifs with h
    · simp
    · intro d hd
      rcases List.mem_cons.mp hd with h1 | h1
      · omega
      · exact ih (n / 10)
          (Nat.div_lt_self (Nat.pos_of_ne_zero h) (by norm_num)) d h1

lemma isDigit_digitToChar (d : Nat) : (digitToChar d).isDigit = true := by
  unfold digitToChar
  split <;> decide

lemma charToDigit_digitToChar (d : Nat) (h : d < 10) :
    charToDigit (digitToChar d) = d := by
  interval_cases d <;> decide

/-- The codec round-trips: parsing a rendered instant recovers it. -/
lemma fromisoformat_isoformat (t : Nat) :
    fromisoformat (isoformat t) = some t := by
  unfold isoformat
  split_ifs with h
  · subst h; decide
  · have hne : natDigitsRev t ≠ [] := by
      rw [natDigitsRev]; simp [h]
    unfold fromisoformat
    have hdata : (String.mk ((natDigitsRev t).reverse.map digitToChar)).data =
        (natDigitsRev t).reverse.map digitToChar := rfl
    rw [hdata]
    have hnonempty : ((natDigitsRev t).reverse.map digitToChar).isEmpty = false := by
      simp [List.isEmpty_iff, hne]
    rw [if_neg (by simp [hnonempty]; exact hne)]
    have halldig : ((natDigitsRev t).reverse.map digitToChar).all Char.isDigit = true := by
      simp only [List.all_eq_true]
      intro c hc
      rcases List.mem_map.mp hc with ⟨d, _, rfl⟩
      exact isDigit_digitToChar d
    rw [if_pos halldig]
    have hmapback :
        ((natDigitsRev t).reverse.map digitToChar).map charToDigit =
          (natDigitsRev t).reverse := by
      rw [List.map_map]
      apply List.map_congr_left ?_ |>.trans (List.map_id _)
      intro d hd
      exact charToDigit_digitToChar d
        (natDigitsRev_lt_ten t d (List.mem_reverse.mp hd))
    rw [hmapback, List.reverse_reverse, natFromDigitsRev_natDigitsRev]

/-- `AgentState` (state_manager.py lines 14-23). -/
structure AgentState where
  issue_number : Int
  repo : String
  current_state : IssueState
  context : WorkflowContext
  created_at : Nat
  updated_at : Nat
  version : String := "1.0.0"

/-- Typed views of JSON values; a mismatch is a failure (in the source the
corresponding operation would raise inside `load_state`'s catch-all). -/
def Json.asInt : Json → Option Int
  | .num n => some n
  | _ => none

/-- String view of a JSON value. -/
def Json.asStr : Json → Option String
  | .str s => some s
  | _ => none

/-- Non-negative integer view of a JSON value. -/
def Json.asNat : Json → Option Nat
  | .num n => if 0 ≤ n then some n.toNat else none
  | _ => none

/-- Array view of a JSON value. -/
def Json.asArr : Json → Option (List Json)
  | .arr l => some l
  | _ => none

/-- Object view of a JSON value. -/
def Json.asObj : Json → Option (List (String × Json))
  | .obj l => some l
  | _ => none

/-- Python `dict.get(key)`: the stored value, or `None` when absent. -/
def pyGet (data : Json) (key : String) : Json :=
  (data.getField key).getD .null

/-- `StateManager._serialize_context` (state_manager.py lines 171-186). -/
def serialize_context (ctx : WorkflowContext) : Json :=
  .obj
    [ ("issue_number", .num ctx.issue_number),
      ("repo", .str ctx.repo),
      ("issue_data", (ctx.issue_data.map id).getD .null),
      ("pr_number", (ctx.pr_number.map Json.num).getD .null),
      ("branch_name", (ctx.branch_name.map Json.str).getD .null),
      ("fix_attempt_count", .num ctx.fix_attempt_count),
      ("last_check_time",
        (ctx.last_check_time.map (fun t => Json.str (isoformat t))).getD .null),
      ("failing_tests", .arr ctx.failing_tests),
      ("review_comments", .arr ctx.review_comments),
      ("generated_files", .arr (ctx.generated_files.map Json.str)),
      ("error_history", .arr (ctx.error_history.map Json.str)),
      ("metadata", .obj ctx.metadata) ]

/-- `StateManager.save_state` (state_manager.py lines 40-71), at the level
of the JSON document written to disk (`json.dump` + atomic rename preserve
the document for JSON-serializable payloads): `updated_at` is stamped to
`now`, then the state dictionary is built. -/
def save_state_dict (state : AgentState) (now : Nat) : Json :=
  .obj
    [ ("issue_number", .num state.issue_number),
      ("repo", .str state.repo),
      ("current_state", .str state.current_state.value),
      ("context", serialize_context state.context),
      ("created_at", .str (isoformat state.created_at)),
      ("updated_at", .str (isoformat now)),
      ("version", .str state.version) ]

/-- Decoder for an optional stored value (`x if x is not None else None`
shape): JSON null is absence. -/
def decodeOptVal (j : Json) : Option Json :=
  match j with
  | .null => none
  | j => some j

/-- Decoder for an optional integer field. -/
def decodeOptInt (j : Json) : Option (Option Int) :=
  match j with
  | .null => some none
  | j => j.asInt.map some

/-- Decoder for an optional string field. -/
def decodeOptStr (j : Json) : Option (Option String) :=
  match j with
  | .null => some none
  | j => j.asStr.map some

/-- Decoder for `last_check_time`:
`datetime.fromisoformat(data["last_check_time"]) if
data.get("last_check_time") else None` - a falsy stored value gives
absence, a truthy one must be a parsable string. -/
def decodeOptTime (j : Json) : Option (Option Nat) :=
  if j.truthy then
    match j with
    | .str s => (fromisoformat s).map some
    | _ => none
  else some none

/-- `StateManager._deserialize_context` (state_manager.py lines 188-203):
`issue_number`/`repo` are mandatory lookups, the rest use `.get` defaults;
`last_check_time` is parsed only when the stored value is truthy. -/
def deserialize_context (data : Json) : Option WorkflowContext := do
  let issue_number ← (← data.getField "issue_number").asInt
  let repo ← (← data.getField "repo").asStr
  let issue_data := decodeOptVal (pyGet data "issue_data")
  let pr_number ← decodeOptInt (pyGet data "pr_number")
  let branch_name ← decodeOptStr (pyGet data "branch_name")
  let fix_attempt_count ←
    match data.getField "fix_attempt_count" with
    | none => pure 0
    | some j => j.asNat
  let last_check_time ← decodeOptTime (pyGet data "last_check_time")
  let failing_tests ←
    match data.getField "failing_tests" with
    | none => pure []
    | some j => j.asArr
  let review_comments ←
    match data.getField "review_comments" with
    | none => pure []
    | some j => j.asArr
  let generated_files ←
    match data.getField "generated_files" with
    | none => pure []
    | some j => (← j.asArr).mapM Json.asStr
  let error_history ←
    match data.getField "error_history" with
    | none => pure []
    | some j => (← j.asArr).mapM Json.asStr
  let metadata ←
    match data.getField "metadata" with
    | none => pure []
    | some j => j.asObj
  pure
    { issue_number := issue_number
      repo := repo
      issue_data := issue_data
      pr_number := pr_number
      branch_name := branch_name
      fix_attempt_count := fix_attempt_count
      last_check_time := last_check_time
      failing_tests := failing_tests
      review_comments := review_comments
      generated_files := generated_files
      error_history := error_history
      metadata := metadata }

/-- `StateManager.load_state` (state_manager.py lines 73-106), from the
JSON document read back from disk; any lookup/parse failure yields `None`
(the source's catch-all). The version mismatch only logs a warning, and
the reconstructed `AgentState` keeps the dataclass default version. -/
def load_state (state_dict : Json) : Option AgentState := do
  let context ← deserialize_context (← state_dict.getField "context")
  let issue_number ← (← state_dict.getField "issue_number").asInt
  let repo ← (← state_dict.getField "repo").asStr
  let current_state ← IssueState.ofValue
    (← (← state_dict.getField "current_state").asStr)
  let created_at ← fromisoformat
    (← (← state_dict.getField "created_at").asStr)
  let updated_at ← fromisoformat
    (← (← state_dict.getField "updated_at").asStr)
  pure
    { issue_number := issue_number
      repo := repo
      current_state := current_state
      context := context
      created_at := created_at
      updated_at := updated_at }

lemma ofValue_value (s : IssueState) : IssueState.ofValue s.value = some s := by
  cases s <;> rfl

lemma isoformat_ne_empty (t : Nat) : isoformat t ≠ "" := by
  unfold isoformat
  split_ifs with h
  · decide
  · intro hc
    have h2 : (natDigitsRev t).reverse.map digitToChar = [] :=
      congrArg String.data hc
    have h3 : natDigitsRev t = [] := by simpa using h2
    rw [natDigitsRev] at h3
    simp [h] at h3

lemma isoformat_injective {a b : Nat} (h : isoformat a = isoformat b) :
    a = b := by
  have ha := fromisoformat_isoformat a
  rw [h, fromisoformat_isoformat] at ha
  exact (Option.some_inj.mp ha).symm

lemma mapM_asStr_map_str (l : List String) :
    (l.map Json.str).mapM Json.asStr = some l := by
  induction l with
  | nil => rfl
  | cons a t ih =>
    have ih' : List.mapM.loop Json.asStr (List.map Json.str t) [] = some t := ih
    rw [List.map_cons, List.mapM_cons]
    simp [Json.asStr, ih']

lemma mapM_loop_asStr_map_str (l : List String) :
    List.mapM.loop Json.asStr (l.map Json.str) [] = some l :=
  mapM_asStr_map_str l

lemma asNat_num_natCast (n : Nat) :
    Json.asNat (Json.num (n : Int)) = some n := by
  simp [Json.asNat]

lemma decodeOptVal_serialize (o : Option Json) (h : o ≠ some Json.null) :
    decodeOptVal ((o.map id).getD .null) = o := by
  rcases o with _ | j
  · rfl
  · cases j <;> simp_all [decodeOptVal]

lemma decodeOptInt_serialize (o : Option Int) :
    decodeOptInt ((o.map Json.num).getD .null) = some o := by
  rcases o with _ | n <;> rfl

lemma decodeOptStr_serialize (o : Option String) :
    decodeOptStr ((o.map Json.str).getD .null) = some o := by
  rcases o with _ | s <;> rfl

lemma decodeOptTime_serialize (o : Option Nat) :
    decodeOptTime
      ((o.map (fun t => Json.str (isoformat t))).getD .null) = some o := by
  rcases o with _ | t
  · rfl
  · simp [decodeOptTime, Json.truthy, isoformat_ne_empty t,
      fromisoformat_isoformat]

/-- Deserializing a serialized context recovers it field for field (for
contexts whose `issue_data` is not the JSON null object, a shape no Python
run produces). -/
lemma deserialize_serialize_context (ctx : WorkflowContext)
    (h : ctx.issue_data ≠ some Json.null) :
    deserialize_context (serialize_context ctx) = some ctx := by
  have g1 : (serialize_context ctx).getField "issue_number" =
      some (.num ctx.issue_number) := rfl
  have g2 : (serialize_context ctx).getField "repo" =
      some (.str ctx.repo) := rfl
  have g3 : pyGet (serialize_context ctx) "issue_data" =
      (ctx.issue_data.map id).getD .null := rfl
  have g4 : pyGet (serialize_context ctx) "pr_number" =
      (ctx.pr_number.map Json.num).getD .null := rfl
  have g5 : pyGet (serialize_context ctx) "branch_name" =
      (ctx.branch_name.map Json.str).getD .null := rfl
  have g6 : (serialize_context ctx).getField "fix_attempt_count" =
      some (.num ctx.fix_attempt_count) := rfl
  have g7 : pyGet (serialize_context ctx) "last_check_time" =
      (ctx.last_check_time.map (fun t => Json.str (isoformat t))).getD
        .null := rfl
  have g8 : (serialize_context ctx).getField "failing_tests" =
      some (.arr ctx.failing_tests) := rfl
  have g9 : (serialize_context ctx).getField "review_comments" =
      some (.arr ctx.review_comments) := rfl
  have g10 : (serialize_context ctx).getField "generated_files" =
      some (.arr (ctx.generated_files.map Json.str)) := rfl
  have g11 : (serialize_context ctx).getField "error_history" =
      some (.arr (ctx.error_history.map Json.str)) := rfl
  have g12 : (serialize_context ctx).getField "metadata" =
      some (.obj ctx.metadata) := rfl
  rw [deserialize_context, g1, g2, g3, g4, g5, g6, g7, g8, g9, g10, g11, g12]
  simp only [Json.asInt, Json.asStr, Json.asArr, Json.asObj,
    asNat_num_natCast, decodeOptVal_serialize ctx.issue_data h,
    decodeOptInt_serialize, decodeOptStr_serialize, decodeOptTime_serialize,
    mapM_asStr_map_str, Option.bind_some, Option.some_bind, Option.bind]
  simp [mapM_loop_asStr_map_str]

/-- C5: saving an `AgentState` and loading it back succeeds and preserves
the issue number, current state, attempt count and branch name;
`last_check_time` round-trips to the same instant when present and remains
absent when not set. The hypothesis rules out the context shape no Python
run produces (an `issue_data` that is present but is the JSON null). -/
theorem C5_state_roundtrip (state : AgentState) (now : Nat)
    (h : state.context.issue_data ≠ some Json.null) :
    ∃ loaded : AgentState,
      load_state (save_state_dict state now) = some loaded ∧
      loaded.issue_number = state.issue_number ∧
      loaded.current_state = state.current_state ∧
      loaded.context.fix_attempt_count = state.context.fix_attempt_count ∧
      loaded.context.branch_name = state.context.branch_name ∧
      loaded.context.last_check_time = state.context.last_check_time := by
  have k1 : (save_state_dict state now).getField "context" =
      some (serialize_context state.context) := rfl
  have k2 : (save_state_dict state now).getField "issue_number" =
      some (.num state.issue_number) := rfl
  have k3 : (save_state_dict state now).getField "repo" =
      some (.str state.repo) := rfl
  have k4 : (save_state_dict state now).getField "current_state" =
      some (.str state.current_state.value) := rfl
  have k5 : (save_state_dict state now).getField "created_at" =
      some (.str (isoformat state.created_at)) := rfl
  have k6 : (save_state_dict state now).getField "updated_at" =
      some (.str (isoformat now)) := rfl
  refine ⟨⟨state.issue_number, state.repo, state.current_state,
    state.context, state.created_at, now, "1.0.0"⟩,
    ?_, rfl, rfl, rfl, rfl, rfl⟩
  rw [load_state, k1, k2, k3, k4, k5, k6]
  simp only [Option.some_bind, deserialize_serialize_context state.context h,
    Json.asInt, Json.asStr, ofValue_value, fromisoformat_isoformat,
    Option.bind_some, Option.bind]
  simp [deserialize_serialize_context state.context h, ofValue_value,
    fromisoformat_isoformat]

/-- Witness for `C5_state_roundtrip` on a concrete saved state matching
the spec scenario (issue 42, state FIXING, attempt count 2). -/
theorem C5_state_roundtrip_witness :
    ∃ loaded : AgentState,
      load_state (save_state_dict
        { issue_number := 42, repo := "pytorch/pytorch",
          current_state := .FIXING,
          context :=
            { issue_number := 42, repo := "pytorch/pytorch",
              fix_attempt_count := 2,
              branch_name := some "fix-issue-42-attempt-2" },
          created_at := 5, updated_at := 5 } 7) = some loaded ∧
      loaded.issue_number =
        (42 : Int) ∧
      loaded.current_state = IssueState.FIXING ∧
      loaded.context.fix_attempt_count = 2 ∧
      loaded.context.branch_name = some "fix-issue-42-attempt-2" ∧
      loaded.context.last_check_time = none :=
  C5_state_roundtrip
    { issue_number := 42, repo := "pytorch/pytorch",
      current_state := .FIXING,
      context :=
        { issue_number := 42, repo := "pytorch/pytorch",
          fix_attempt_count := 2,
          branch_name := some "fix-issue-42-attempt-2" },
      created_at := 5, updated_at := 5 } 7 (by simp)

/-- `IssueFixingAgent._save_state` (controller.py lines 432-443): every
invocation constructs a fresh `AgentState` with `created_at` and
`updated_at` both set to the current `datetime.now()` reading. -/
def controller_save_state (issue : Int) (repo : String) (s : IssueState)
    (ctx : WorkflowContext) (now : Nat) : AgentState :=
  { issue_number := issue, repo := repo, current_state := s, context := ctx,
    created_at := now, updated_at := now }

/-- C10: the controller's state-saving step stamps `created_at` with the
current time, so the persisted `created_at` does not preserve the run's
original creation time: two saves at distinct instants store distinct
`created_at` strings, and a state loaded from disk has its `created_at`
discarded on the next save (the stored value depends only on the save
time, not on the loaded state). -/
theorem C10_created_at_not_preserved (issue : Int) (repo : String)
    (s : IssueState) (ctx : WorkflowContext) (t1 t2 : Nat)
    (hne : t1 ≠ t2) (loaded : AgentState) :
    (controller_save_state issue repo s ctx t1).created_at = t1 ∧
    (save_state_dict (controller_save_state issue repo s ctx t1) t1).getField
        "created_at" = some (.str (isoformat t1)) ∧
    (save_state_dict (controller_save_state issue repo s ctx t1) t1).getField
        "created_at" ≠
      (save_state_dict (controller_save_state issue repo s ctx t2) t2).getField
        "created_at" ∧
    (save_state_dict
        (controller_save_state issue repo loaded.current_state loaded.context
          t2) t2).getField "created_at" =
      some (.str (isoformat t2)) := by
  refine ⟨rfl, rfl, ?_, rfl⟩
  intro hc
  have h1 : (some (Json.str (isoformat t1)) : Option Json) =
      some (.str (isoformat t2)) := hc
  have h2 : isoformat t1 = isoformat t2 := by
    injection Option.some_inj.mp h1
  exact hne (isoformat_injective h2)

/-- Witness for `C10_created_at_not_preserved` at times 0 and 1. -/
theorem C10_created_at_not_preserved_witness :
    (controller_save_state 1 "pytorch/pytorch" .FIXING
        (initial_context 1 "pytorch/pytorch") 0).created_at = 0 ∧
    (save_state_dict (controller_save_state 1 "pytorch/pytorch" .FIXING
        (initial_context 1 "pytorch/pytorch") 0) 0).getField "created_at" =
      some (.str (isoformat 0)) ∧
    (save_state_dict (controller_save_state 1 "pytorch/pytorch" .FIXING
        (initial_context 1 "pytorch/pytorch") 0) 0).getField "created_at" ≠
      (save_state_dict (controller_save_state 1 "pytorch/pytorch" .FIXING
        (initial_context 1 "pytorch/pytorch") 1) 1).getField "created_at" ∧
    (save_state_dict (controller_save_state 1 "pytorch/pytorch"
        (controller_save_state 1 "pytorch/pytorch" .FIXING
          (initial_context 1 "pytorch/pytorch") 0).current_state
        (controller_save_state 1 "pytorch/pytorch" .FIXING
          (initial_context 1 "pytorch/pytorch") 0).context 1) 1).getField
        "created_at" =
      some (.str (isoformat 1)) :=
  C10_created_at_not_preserved 1 "pytorch/pytorch" .FIXING
    (initial_context 1 "pytorch/pytorch") 0 1 (by decide)
    (controller_save_state 1 "pytorch/pytorch" .FIXING
      (initial_context 1 "pytorch/pytorch") 0)

/-! ## LLM client (src/claude/client.py)

### JSON parsing (`json.loads`)

`json.loads` is modelled on the fragment of JSON the client exchanges:
objects, arrays, strings (without escape sequences), integers, booleans
and null, with standard whitespace. The parser is fuel-indexed (fuel
bounds nesting depth) and requires the whole input to be consumed, as
`json.loads` does. -/

/-- JSON whitespace accepted by `json.loads`. -/
def jsonWs (c : Char) : Bool :=
  c = ' ' || c = '\t' || c = '\n' || c = '\r'

/-- Body of a JSON string after the opening quote: content up to the
closing quote (escape sequences are outside the modelled fragment). -/
def parseStringBody : List Char → Option (List Char × List Char)
  | [] => none
  | c :: rest =>
      if c = '"' then some ([], rest)
      else if c = '\\' then none
      else (parseStringBody rest).map fun p => (c :: p.1, p.2)

/-- Digit run to its value (accumulator form). -/
def parseNatAux : List Char → Nat → Nat × List Char
  | [], acc => (acc, [])
  | c :: rest, acc =>
      if c.isDigit then parseNatAux rest (acc * 10 + (c.toNat - 48))
      else (acc, c :: rest)

/-- An integer literal: at least one leading digit. -/
def parseNat (cs : List Char) : Option (Nat × List Char) :=
  match cs with
  | c :: rest =>
      if c.isDigit then some (parseNatAux rest (c.toNat - 48)) else none
  | [] => none

mutual

/-- One JSON value, consuming leading whitespace. -/
def parseValue : Nat → List Char → Option (Json × List Char)
  | 0, _ => none
  | fuel + 1, cs =>
    match cs.dropWhile jsonWs with
    | 'n' :: 'u' :: 'l' :: 'l' :: rest => some (.null, rest)
    | 't' :: 'r' :: 'u' :: 'e' :: rest => some (.bool true, rest)
    | 'f' :: 'a' :: 'l' :: 's' :: 'e' :: rest => some (.bool false, rest)
    | '"' :: rest =>
        (parseStringBody rest).map fun p => (.str (String.mk p.1), p.2)
    | '[' :: rest =>
        (match rest.dropWhile jsonWs with
        | ']' :: rest2 => some (.arr [], rest2)
        | rest2 =>
            (parseElems fuel rest2).map fun p => (.arr p.1, p.2))
    | '\x7b' :: rest =>
        (match rest.dropWhile jsonWs with
        | '\x7d' :: rest2 => some (.obj [], rest2)
        | rest2 =>
            (parseMembers fuel rest2).map fun p => (.obj p.1, p.2))
    | '-' :: rest =>
        (parseNat rest).map fun p => (.num (-(p.1 : Int)), p.2)
    | c :: rest =>
        if c.isDigit then
          (parseNat (c :: rest)).map fun p => (.num (p.1 : Int), p.2)
        else none
    | [] => none

/-- Non-empty comma-separated array elements up to `]`. -/
def parseElems : Nat → List Char → Option (List Json × List Char)
  | 0, _ => none
  | fuel + 1, cs =>
    match parseValue fuel cs with
    | none => none
    | some (j, rest) =>
      match rest.dropWhile jsonWs with
      | ',' :: rest2 =>
          (parseElems fuel rest2).map fun p => (j :: p.1, p.2)
      | ']' :: rest2 => some ([j], rest2)
      | _ => none

/-- Non-empty comma-separated object members up to the closing brace. -/
def parseMembers : Nat → List Char → Option (List (String × Json) × List Char)
  | 0, _ => none
  | fuel + 1, cs =>
    match cs.dropWhile jsonWs with
    | '"' :: rest =>
      (match parseStringBody rest with
      | none => none
      | some (k, rest2) =>
        match rest2.dropWhile jsonWs with
        | ':' :: rest3 =>
          (match parseValue fuel rest3 with
          | none => none
          | some (v, rest4) =>
            match rest4.dropWhile jsonWs with
            | ',' :: rest5 =>
                (parseMembers fuel rest5).map fun p =>
                  ((String.mk k, v) :: p.1, p.2)
            | '\x7d' :: rest5 => some ([(String.mk k, v)], rest5)
            | _ => none)
        | _ => none)
    | _ => none

end

/-- `json.loads` on the modelled fragment: parse one value and require
only whitespace to remain. -/
def loads (s : String) : Option Json :=
  match parseValue (s.data.length + 1) s.data with
  | some (j, rest) => if (rest.dropWhile jsonWs).isEmpty then some j else none
  | none => none

example : loads "\x7b\"a\": 1\x7d" = some (.obj [("a", .num 1)]) := rfl

example : loads "no json here" = none := rfl

example : loads "  [1, -2, \"x\"] " =
    some (.arr [.num 1, .num (-2), .str "x"]) := rfl

/-! ### Extraction regexes of `_parse_json_response` (client.py lines
141-164)

The fenced-block regex is `` ```(?:json)?\s*(\{.*?\})\s*``` `` with
`re.DOTALL`: the leftmost position where the whole pattern matches wins,
the optional `json` label is preferred when it fits, and the lazy group
takes the shortest brace-delimited span whose closer is followed (after
whitespace) by a closing fence. The fallback regex is the greedy
`(\{.*\})` with `re.DOTALL`: from the first `\x7b` to the last `\x7d`. -/

/-- Python regex `\s` (ASCII whitespace classes). -/
def pySpace (c : Char) : Bool :=
  c = ' ' || c = '\t' || c = '\n' || c = '\r' || c = '\x0b' || c = '\x0c'

/-- Does a closing fence follow, after optional whitespace? (`\s*` + three
backticks). -/
def fenceCloses (cs : List Char) : Bool :=
  listHasPrefix "```".data (cs.dropWhile pySpace)

/-- Lazy scan of the fenced group body: at each closing brace, stop if the
fence closes here; otherwise the brace joins the group content. -/
def lazyBrace : List Char → List Char → Option (List Char)
  | [], _ => none
  | c :: rest, acc =>
      if c = '\x7d' && fenceCloses rest then
        some ('\x7b' :: (acc.reverse ++ ['\x7d']))
      else lazyBrace rest (c :: acc)

/-- The group part of the fence pattern: `\s*` then an opening brace then
the lazy body. -/
def fenceBody (cs : List Char) : Option (List Char) :=
  match cs.dropWhile pySpace with
  | '\x7b' :: rest => lazyBrace rest []
  | _ => none

/-- After the opening fence: try with the optional `json` label first
(regex backtracking order), then without. -/
def afterFence (cs : List Char) : Option (List Char) :=
  match
    (if listHasPrefix "json".data cs then fenceBody (cs.drop 4) else none)
  with
  | some g => some g
  | none => fenceBody cs

/-- `re.search` of the fenced-block pattern: earliest start position that
admits a full match. -/
def findFencedBlock : List Char → Option (List Char)
  | [] => none
  | c :: cs =>
      if listHasPrefix "```".data (c :: cs) then
        match afterFence ((c :: cs).drop 3) with
        | some g => some g
        | none => findFencedBlock cs
      else findFencedBlock cs

/-- `re.search` of the greedy `(\{.*\})` pattern with `re.DOTALL`: the
span from the first opening brace to the last closing brace, when the
latter lies beyond the former. -/
def braceSpan (cs : List Char) : Option (List Char) :=
  match cs.dropWhile (fun c => !(c = '\x7b')) with
  | [] => none
  | b :: rest =>
      match rest.reverse.dropWhile (fun c => !(c = '\x7d')) with
      | [] => none
      | rev => some (b :: rev.reverse)

/-- `ClaudeClient._parse_json_response` (client.py lines 141-164): direct
parse, then the fenced block, then the greedy brace span; `None` when no
candidate parses. -/
def parse_json_response (response : String) : Option Json :=
  match loads response with
  | some j => some j
  | none =>
    match (findFencedBlock response.data).bind
        (fun g => loads (String.mk g)) with
    | some j => some j
    | none => (braceSpan response.data).bind fun g => loads (String.mk g)

example : parse_json_response "```json\n\x7b\"category\": \"bug\"\x7d\n```" =
    some (.obj [("category", .str "bug")]) := rfl

example : parse_json_response "\x7b\"a\": 1\x7d" =
    some (.obj [("a", .num 1)]) := rfl

example : parse_json_response "no json here" = none := rfl

example : parse_json_response "prefix text ```\x7b\"x\": null\x7d``` suffix" =
    some (.obj [("x", .null)]) := rfl

example : parse_json_response "see \x7b\"k\": [true]\x7d end" =
    some (.obj [("k", .arr [.bool true])]) := rfl

/-! ### Request retry loop (`_make_request`, client.py lines 80-139)

One attempt of the loop either returns the API response's content blocks
(their text) or raises; the loop retries non-final failures (after a
backoff sleep, which has no effect on the data model) and re-raises the
final attempt's error. The list argument carries the outcome the API
would give on each of the `max_retries` attempts. -/

/-- Exceptions an attempt can raise (rate limit, API error, connection
error, anything else). -/
inductive ApiError where
  | rateLimit (msg : String)
  | apiError (msg : String)
  | connectionError (msg : String)
  | other (msg : String)
deriving Repr, DecidableEq

/-- Errors `_make_request` can propagate: a re-raised attempt exception,
the `ValueError` for an empty response, or the trailing generic
`RuntimeError`. -/
inductive RequestError where
  | api (e : ApiError)
  | emptyResponse
  | maxRetriesExceeded
deriving Repr, DecidableEq

/-- Outcome of one loop iteration (client.py lines 105-111): the first
content block's text on success, the `ValueError` when the content list is
empty, the API exception otherwise. -/
def attempt_result :
    Except ApiError (List String) → Except RequestError String
  | .error e => .error (.api e)
  | .ok [] => .error .emptyResponse
  | .ok (t :: _) => .ok t

/-- The error an attempt contributes when it does not return. -/
def attempt_error : Except ApiError (List String) → RequestError
  | .error e => .api e
  | .ok _ => .emptyResponse

/-- `ClaudeClient._make_request` (client.py lines 80-139): iterate the
attempts; a non-final failure retries, a final failure re-raises, and the
loop falling through raises the generic `RuntimeError`. -/
def make_request :
    List (Except ApiError (List String)) → Except RequestError String
  | [] => .error .maxRetriesExceeded
  | a :: rest =>
    match attempt_result a with
    | .ok t => .ok t
    | .error e => if rest.isEmpty then .error e else make_request rest

/-- C9: with at least one attempt configured (`max_retries >= 1`),
`_make_request` either returns the text of the first content block of a
successful attempt or re-raises the final attempt's error; the generic
`Max retries exceeded` RuntimeError after the loop is unreachable. -/
theorem C9_make_request_no_fallthrough
    (attempts : List (Except ApiError (List String)))
    (h : attempts ≠ []) :
    make_request attempts ≠ Except.error RequestError.maxRetriesExceeded ∧
    ((∃ t ts, Except.ok (t :: ts) ∈ attempts ∧
        make_request attempts = Except.ok t) ∨
      make_request attempts =
        Except.error (attempt_error (attempts.getLast h))) := by
  induction attempts with
  | nil => exact absurd rfl h
  | cons a rest ih =>
    by_cases hr : rest = []
    · subst hr
      cases a with
      | error e =>
        refine ⟨?_, Or.inr rfl⟩
        intro hc
        simp [make_request, attempt_result] at hc
      | ok l =>
        cases l with
        | nil =>
          refine ⟨?_, Or.inr rfl⟩
          intro hc
          simp [make_request, attempt_result] at hc
        | cons t ts =>
          exact ⟨by simp [make_request, attempt_result],
            Or.inl ⟨t, ts, List.mem_singleton.mpr rfl, rfl⟩⟩
    · have ih' := ih hr
      have hglast : (a :: rest).getLast h = rest.getLast hr :=
        List.getLast_cons hr
      cases ha : attempt_result a with
      | ok t =>
        have hmk : make_request (a :: rest) = Except.ok t := by
          simp [make_request, ha]
        refine ⟨by simp [hmk], Or.inl ⟨t, ?_⟩⟩
        cases a with
        | error e => simp [attempt_result] at ha
        | ok l =>
          cases l with
          | nil => simp [attempt_result] at ha
          | cons t0 ts0 =>
            have ht : t0 = t := by simpa [attempt_result] using ha
            exact ⟨ts0, by simp [ht], hmk⟩
      | error e =>
        have hmk : make_request (a :: rest) = make_request rest := by
          simp [make_request, ha, hr]
        rw [hmk, hglast]
        refine ⟨ih'.1, ?_⟩
        rcases ih'.2 with ⟨t, ts, hmem, heq⟩ | heq
        · exact Or.inl ⟨t, ts, List.mem_cons_of_mem a hmem, heq⟩
        · exact Or.inr heq

/-- Witness for `C9_make_request_no_fallthrough`: one failing attempt then
one successful attempt with a single content block. -/
theorem C9_make_request_no_fallthrough_witness :
    make_request [Except.error (ApiError.rateLimit "rl"),
        Except.ok ["hello"]] ≠
      Except.error RequestError.maxRetriesExceeded ∧
    ((∃ t ts, Except.ok (t :: ts) ∈
        [Except.error (ApiError.rateLimit "rl"), Except.ok ["hello"]] ∧
        make_request [Except.error (ApiError.rateLimit "rl"),
          Except.ok ["hello"]] = Except.ok t) ∨
      make_request [Except.error (ApiError.rateLimit "rl"),
          Except.ok ["hello"]] =
        Except.error (attempt_error
          ([Except.error (ApiError.rateLimit "rl"),
            Except.ok ["hello"]].getLast (by simp)))) :=
  C9_make_request_no_fallthrough
    [Except.error (ApiError.rateLimit "rl"), Except.ok ["hello"]] (by simp)

/-- The fixed fallback analysis object (client.py lines 34-38 and 45). -/
def analyze_fallback : Json :=
  .obj [("category", .str "unknown"), ("complexity", .str "medium"),
    ("search_terms", .arr [])]

/-- `ClaudeClient.analyze_issue` (client.py lines 23-45): any request
failure, an unparsable response, or a falsy parsed value yields the fixed
fallback; the function is total (never raises). The `attempts` argument
carries the outcomes of the underlying completion call. -/
def analyze_issue
    (attempts : List (Except ApiError (List String))) : Json :=
  match make_request attempts with
  | .error _ => analyze_fallback
  | .ok response =>
    match parse_json_response response with
    | none => analyze_fallback
    | some analysis =>
        if analysis.truthy then analysis else analyze_fallback

/-- The fallback PR payload (client.py lines 63-67 and 72-76):
`issue_data.get('number', 'unknown')` formatted into the title. Shapes of
`number` other than an integer are outside the modelled payloads. -/
def pr_fallback (issue_data : Json) : Json :=
  .obj [("title", .str ("Fix issue #" ++
      (match issue_data.getField "number" with
       | some (Json.num n) => toString n
       | _ => "unknown"))),
    ("body", .str "Automated fix for PyTorch issue.")]

/-- `ClaudeClient.generate_pr_description` (client.py lines 48-76): same
failure contract as `analyze_issue`, with the issue-specific fallback. -/
def generate_pr_description (issue_data : Json)
    (attempts : List (Except ApiError (List String))) : Json :=
  match make_request attempts with
  | .error _ => pr_fallback issue_data
  | .ok response =>
    match parse_json_response response with
    | none => pr_fallback issue_data
    | some pr_data =>
        if pr_data.truthy then pr_data else pr_fallback issue_data

lemma make_request_all_error
    (attempts : List (Except ApiError (List String)))
    (h : ∀ a ∈ attempts, ∃ e, a = Except.error e) :
    ∃ er, make_request attempts = Except.error er := by
  induction attempts with
  | nil => exact ⟨.maxRetriesExceeded, rfl⟩
  | cons a rest ih =>
    rcases h a (List.mem_cons_self a rest) with ⟨e, rfl⟩
    by_cases hr : rest = []
    · subst hr
      exact ⟨.api e, rfl⟩
    · rcases ih (fun b hb => h b (List.mem_cons_of_mem _ hb)) with ⟨er, her⟩
      refine ⟨er, ?_⟩
      simpa [make_request, attempt_result, hr] using her

/-- C6: `analyze_issue` and `generate_pr_description` never raise: when
the underlying completion call raises on every retry attempt, or when the
response JSON is unparsable, `analyze_issue` returns the fixed fallback
`category unknown / complexity medium / empty search_terms` and
`generate_pr_description` returns `Fix issue #<n>` with the generic
body. -/
theorem C6_llm_fallbacks :
    (∀ attempts : List (Except ApiError (List String)),
      (∀ a ∈ attempts, ∃ e, a = Except.error e) →
      analyze_issue attempts = analyze_fallback) ∧
    (∀ (attempts : List (Except ApiError (List String)))
        (issue_data : Json) (n : Int),
      (∀ a ∈ attempts, ∃ e, a = Except.error e) →
      issue_data.getField "number" = some (.num n) →
      generate_pr_description issue_data attempts =
        .obj [("title", .str ("Fix issue #" ++ toString n)),
          ("body", .str "Automated fix for PyTorch issue.")]) ∧
    (∀ (attempts : List (Except ApiError (List String))) (resp : String),
      make_request attempts = Except.ok resp →
      parse_json_response resp = none →
      analyze_issue attempts = analyze_fallback ∧
      (∀ (issue_data : Json) (n : Int),
        issue_data.getField "number" = some (.num n) →
        generate_pr_description issue_data attempts =
          .obj [("title", .str ("Fix issue #" ++ toString n)),
            ("body", .str "Automated fix for PyTorch issue.")])) := by
  refine ⟨?_, ?_, ?_⟩
  · intro attempts h
    rcases make_request_all_error attempts h with ⟨er, her⟩
    simp [analyze_issue, her]
  · intro attempts issue_data n h hn
    rcases make_request_all_error attempts h with ⟨er, her⟩
    simp [generate_pr_description, her, pr_fallback, hn]
  · intro attempts resp hok hparse
    constructor
    · simp [analyze_issue, hok, hparse]
    · intro issue_data n hn
      simp [generate_pr_description, hok, hparse, pr_fallback, hn]

/-- Witness for `C6_llm_fallbacks`: all-failing attempts for the fallback
branch, and a successful but non-JSON response for the unparsable
branch. -/
theorem C6_llm_fallbacks_witness :
    analyze_issue [Except.error (ApiError.apiError "boom")] =
      analyze_fallback ∧
    generate_pr_description (.obj [("number", .num 7)])
        [Except.error (ApiError.apiError "boom")] =
      .obj [("title", .str ("Fix issue #" ++ toString (7 : Int))),
        ("body", .str "Automated fix for PyTorch issue.")] ∧
    analyze_issue [Except.ok ["no json here"]] = analyze_fallback :=
  ⟨C6_llm_fallbacks.1 [Except.error (ApiError.apiError "boom")]
    (by intro a ha; simp at ha; exact ⟨_, ha⟩),
  C6_llm_fallbacks.2.1 [Except.error (ApiError.apiError "boom")]
    (.obj [("number", .num 7)]) 7
    (by intro a ha; simp at ha; exact ⟨_, ha⟩) rfl,
  (C6_llm_fallbacks.2.2 [Except.ok ["no json here"]] "no json here"
    rfl rfl).1⟩

/-- C7: JSON extraction tries, in order, a direct parse of the whole
response, then the fenced code block (optionally labeled `json`), then
the first brace-delimited span (greedy, to the last closing brace); a
fenced `json` response and a bare braced response yield the parsed
object, and a response with no parsable candidate yields no result. -/
theorem C7_json_extraction :
    (∀ (s : String) (j : Json),
      loads s = some j → parse_json_response s = some j) ∧
    (∀ (s : String) (j : Json), loads s = none →
      (findFencedBlock s.data).bind (fun g => loads (String.mk g)) =
        some j →
      parse_json_response s = some j) ∧
    (∀ s : String, loads s = none →
      (findFencedBlock s.data).bind (fun g => loads (String.mk g)) =
        none →
      parse_json_response s =
        (braceSpan s.data).bind fun g => loads (String.mk g)) ∧
    parse_json_response "```json\n\x7b\"category\": \"bug\"\x7d\n```" =
      some (.obj [("category", .str "bug")]) ∧
    parse_json_response "\x7b\"a\": 1\x7d" =
      some (.obj [("a", .num 1)]) ∧
    parse_json_response "no json here" = none := by
  refine ⟨?_, ?_, ?_, rfl, rfl, rfl⟩
  · intro s j h
    simp [parse_json_response, h]
  · intro s j h1 h2
    simp [parse_json_response, h1, h2]
  · intro s h1 h2
    simp [parse_json_response, h1, h2]

/-- Witness for `C7_json_extraction`: the fenced-block branch at a
concrete response whose direct parse fails. -/
theorem C7_json_extraction_witness :
    parse_json_response "```json\n\x7b\"n\": 2\x7d\n```" =
      some (.obj [("n", .num 2)]) :=
  C7_json_extraction.2.1 "```json\n\x7b\"n\": 2\x7d\n```"
    (.obj [("n", .num 2)]) rfl rfl

/-! ## PyTorch HUD client (src/mcp/pytorch_hud_client.py)

`get_failing_tests` (lines 40-118) mines recent commits and their job
logs through three HUD tools (`get_recent_commits_with_jobs_resource`,
`download_log_to_file_resource`, `extract_test_results_resource`); it
does NOT call a `get_failing_tests` tool, and a response that is absent
or lacks its expected field is skipped silently (the function returns the
empty list) rather than raising; only an exception during retrieval is
wrapped into the fatal `RuntimeError`. Tool responses are JSON values
(`Json.null` for an absent response); per-job failures are swallowed by
the inner handler (lines 105-106). Dictionary access on the innermost
test entries is modelled by `pyGet` (absent for non-objects). -/

/-- `TestStatus` (pytorch_hud_client.py lines 9-16). -/
inductive TestStatus where
  | PENDING
  | RUNNING
  | PASSED
  | FAILED
  | SKIPPED
  | ERROR
deriving Repr, DecidableEq

/-- `TestResult` (pytorch_hud_client.py lines 19-28); non-status fields
are carried as the JSON values found in the log extraction. -/
structure TestResult where
  name : Json
  status : TestStatus
  duration : Json
  error_message : Json
  traceback : Json
  file_path : Json
  line_number : Json

/-- Python `==` between a JSON value and a string literal. -/
def jsonEqStr (j : Json) (s : String) : Bool :=
  match j with
  | .str t => t = s
  | _ => false

/-- Python `==` between a JSON value and an integer. -/
def jsonEqInt (j : Json) (n : Int) : Bool :=
  match j with
  | .num m => m = n
  | _ => false

/-- Python `int(x)` on the protocol's job ids. -/
def jsonToInt (j : Json) : Option Int :=
  match j with
  | .num n => some n
  | _ => none

/-- Outcomes of the three HUD tool calls; `.error` is a raised
exception. -/
structure HudResponses where
  recent_commits : Except Unit Json
  download_log : Int → Except Unit Json
  extract_tests : Json → Except Unit Json

/-- The `TestResult` built for one failed test entry (lines 92-100):
status is forced to `FAILED`, the other fields come from `.get` with the
source's defaults. -/
def mkTestResult (test : Json) : TestResult :=
  { name := (test.getField "name").getD (.str "Unknown Test")
    status := TestStatus.FAILED
    duration := pyGet test "duration"
    error_message := (test.getField "error_message").getD (.str "Test failed")
    traceback := pyGet test "traceback"
    file_path := pyGet test "file_path"
    line_number := pyGet test "line_number" }

/-- Innermost loop (lines 90-104): append each `status == "failed"` entry
and break once `max_errors` results are collected. -/
def hud_collect_tests (tests : List Json) (max_errors : Nat)
    (acc : List TestResult) : List TestResult :=
  match tests with
  | [] => acc
  | test :: rest =>
    if jsonEqStr (pyGet test "status") "failed" then
      let acc2 := acc ++ [mkTestResult test]
      if max_errors ≤ acc2.length then acc2
      else hud_collect_tests rest max_errors acc2
    else hud_collect_tests rest max_errors acc

/-- One failing job's log analysis (lines 71-106, the inner `try`): a
falsy job id, a failed download/extract call, or an unexpected response
shape leaves the accumulator unchanged (the inner handler logs and
continues). -/
def hud_process_job (o : HudResponses) (job : Json) (max_errors : Nat)
    (acc : List TestResult) : List TestResult :=
  let job_id := pyGet job "id"
  if job_id.truthy then
    match jsonToInt job_id with
    | none => acc
    | some jid =>
      match o.download_log jid with
      | .error _ => acc
      | .ok log_info =>
        match log_info.getField "file_path" with
        | none => acc
        | some fp =>
          if log_info.truthy then
            match o.extract_tests fp with
            | .error _ => acc
            | .ok tr =>
              if tr.truthy then
                match tr.getField "test_results" with
                | some (.arr tests) =>
                    hud_collect_tests tests max_errors acc
                | _ => acc
              else acc
          else acc
  else acc

/-- Job loop of the matched commit (lines 68-109): only jobs with
conclusion `failure` are analyzed; the loop breaks once `max_errors`
results are collected. -/
def hud_process_jobs (o : HudResponses) (jobs : List Json)
    (max_errors : Nat) (acc : List TestResult) : List TestResult :=
  match jobs with
  | [] => acc
  | job :: rest =>
    if jsonEqStr (pyGet job "conclusion") "failure" then
      let acc2 := hud_process_job o job max_errors acc
      if max_errors ≤ acc2.length then acc2
      else hud_process_jobs o rest max_errors acc2
    else hud_process_jobs o rest max_errors acc

/-- Commit loop (lines 62-111): the first commit whose `pr_number`
matches is analyzed and the loop breaks; iterating a non-list `jobs`
value raises, which the outer handler wraps into the fatal error. -/
def hud_process_commits (o : HudResponses) (commits : List Json)
    (pr_number : Int) (max_errors : Nat) :
    Except String (List TestResult) :=
  match commits with
  | [] => .ok []
  | commit :: rest =>
    if jsonEqInt (pyGet commit "pr_number") pr_number then
      match (commit.getField "jobs").getD (.arr []) with
      | .arr jobs => .ok (hud_process_jobs o jobs max_errors [])
      | _ => .error "Cannot retrieve test failures from PyTorch HUD"
    else hud_process_commits o rest pr_number max_errors

/-- `PyTorchHUDClient.get_failing_tests` (pytorch_hud_client.py lines
40-118): `max_errors` defaults to 10; a raised tool call becomes the
fatal `RuntimeError`; a falsy response or one without a `commits` field
returns the empty list. -/
def get_failing_tests (o : HudResponses) (pr_number : Int)
    (max_errors : Nat := 10) : Except String (List TestResult) :=
  match o.recent_commits with
  | .error _ => .error "Cannot retrieve test failures from PyTorch HUD"
  | .ok rc =>
    match rc.getField "commits" with
    | some (.arr commits) =>
        if rc.truthy then
          hud_process_commits o commits pr_number max_errors
        else .ok []
    | some _ =>
        if rc.truthy then
          .error "Cannot retrieve test failures from PyTorch HUD"
        else .ok []
    | none => .ok []

lemma hud_collect_tests_spec (tests : List Json) (maxe : Nat)
    (acc : List TestResult) (hlen : acc.length < maxe)
    (hall : ∀ r ∈ acc, r.status = TestStatus.FAILED) :
    (hud_collect_tests tests maxe acc).length ≤ maxe ∧
      ∀ r ∈ hud_collect_tests tests maxe acc,
        r.status = TestStatus.FAILED := by
  induction tests generalizing acc with
  | nil => exact ⟨Nat.le_of_lt hlen, hall⟩
  | cons test rest ih =>
    rw [hud_collect_tests]
    by_cases h1 : jsonEqStr (pyGet test "status") "failed" = true
    · simp only [h1, if_true]
      have hall2 : ∀ r ∈ acc ++ [mkTestResult test],
          r.status = TestStatus.FAILED := by
        intro r hr
        rcases List.mem_append.mp hr with hr | hr
        · exact hall r hr
        · rw [List.mem_singleton.mp hr]; rfl
      by_cases h2 : maxe ≤ (acc ++ [mkTestResult test]).length
      · simp only [h2, if_true]
        refine ⟨?_, hall2⟩
        simp only [List.length_append, List.length_singleton]
        omega
      · simp only [h2, if_false]
        exact ih _ (by omega) hall2
    · simp only [h1, if_false]
      exact ih acc hlen hall

lemma hud_process_job_spec (o : HudResponses) (job : Json) (maxe : Nat)
    (acc : List TestResult) (hlen : acc.length < maxe)
    (hall : ∀ r ∈ acc, r.status = TestStatus.FAILED) :
    (hud_process_job o job maxe acc).length ≤ maxe ∧
      ∀ r ∈ hud_process_job o job maxe acc,
        r.status = TestStatus.FAILED := by
  rw [hud_process_job]
  repeat' split
  all_goals
    first
      | exact hud_collect_tests_spec _ _ _ hlen hall
      | exact ⟨Nat.le_of_lt hlen, hall⟩

lemma hud_process_jobs_spec (o : HudResponses) (jobs : List Json)
    (maxe : Nat) (acc : List TestResult) (hlen : acc.length < maxe)
    (hall : ∀ r ∈ acc, r.status = TestStatus.FAILED) :
    (hud_process_jobs o jobs maxe acc).length ≤ maxe ∧
      ∀ r ∈ hud_process_jobs o jobs maxe acc,
        r.status = TestStatus.FAILED := by
  induction jobs generalizing acc with
  | nil => exact ⟨Nat.le_of_lt hlen, hall⟩
  | cons job rest ih =>
    rw [hud_process_jobs]
    by_cases h1 : jsonEqStr (pyGet job "conclusion") "failure" = true
    · simp only [h1, if_true]
      have hspec := hud_process_job_spec o job maxe acc hlen hall
      by_cases h2 : maxe ≤ (hud_process_job o job maxe acc).length
      · simp only [h2, if_true]
        exact hspec
      · simp only [h2, if_false]
        exact ih _ (by omega) hspec.2
    · simp only [h1, if_false]
      exact ih acc hlen hall

lemma hud_process_commits_spec (o : HudResponses) (commits : List Json)
    (pr : Int) (maxe : Nat) (hmax : 1 ≤ maxe) :
    ∀ res, hud_process_commits o commits pr maxe = .ok res →
      res.length ≤ maxe ∧ ∀ r ∈ res, r.status = TestStatus.FAILED := by
  induction commits with
  | nil =>
    intro res h
    rw [hud_process_commits] at h
    injection h with h
    subst h
    exact ⟨by simp, by simp⟩
  | cons commit rest ih =>
    intro res h
    rw [hud_process_commits] at h
    by_cases h1 : jsonEqInt (pyGet commit "pr_number") pr = true
    · simp only [h1, if_true] at h
      split at h
      · injection h with h
        subst h
        exact hud_process_jobs_spec o _ maxe [] (by simpa using hmax)
          (by simp)
      · cases h
    · simp only [h1, if_false] at h
      exact ih res h

/-- C4 (amended): `get_failing_tests` raises the fatal retrieval error
exactly when the commits tool call raises; a response that is absent
(`None`) or lacks a `commits` field yields the empty list without
raising; and every successful result has at most `max_errors` entries
(for a positive cap), each with status `FAILED`. -/
theorem C4_get_failing_tests_behavior (o : HudResponses) (pr : Int)
    (maxe : Nat) (hmax : 1 ≤ maxe) :
    (∀ e : Unit, o.recent_commits = .error e →
      get_failing_tests o pr maxe =
        .error "Cannot retrieve test failures from PyTorch HUD") ∧
    (o.recent_commits = .ok .null →
      get_failing_tests o pr maxe = .ok []) ∧
    (∀ rc : Json, o.recent_commits = .ok rc →
      rc.getField "commits" = none →
      get_failing_tests o pr maxe = .ok []) ∧
    (∀ res, get_failing_tests o pr maxe = .ok res →
      res.length ≤ maxe ∧ ∀ r ∈ res, r.status = TestStatus.FAILED) := by
  refine ⟨?_, ?_, ?_, ?_⟩
  · intro e he
    simp [get_failing_tests, he]
  · intro h
    simp [get_failing_tests, h, Json.getField]
  · intro rc hrc hc
    simp [get_failing_tests, hrc, hc]
  · intro res h
    rw [get_failing_tests] at h
    split at h
    · cases h
    · split at h
      · split at h
        · exact hud_process_commits_spec o _ pr maxe hmax res h
        · injection h with h
          subst h
          exact ⟨by simp, by simp⟩
      · split at h
        · cases h
        · injection h with h
          subst h
          exact ⟨by simp, by simp⟩
      · injection h with h
        subst h
        exact ⟨by simp, by simp⟩

/-- Witness for `C4_get_failing_tests_behavior`: an absent (`None`)
commits response with cap 3 yields the empty list, not an error. -/
theorem C4_get_failing_tests_behavior_witness :
    get_failing_tests
        ⟨Except.ok Json.null, fun _ => Except.error (),
          fun _ => Except.error ()⟩ 9 3 = Except.ok [] :=
  (C4_get_failing_tests_behavior
    ⟨Except.ok Json.null, fun _ => Except.error (),
      fun _ => Except.error ()⟩ 9 3 (by decide)).2.1 rfl

/-- Counterexample to C4 as stated: with an absent (`None`) tool
response, `get_failing_tests` returns the empty list instead of raising a
fatal retrieval error; and with the default `max_errors` (which is 10,
not 3) a run over one failing job with four failed tests returns all four
results, more than the claimed default cap of 3. -/
theorem C4_counterexample :
    get_failing_tests
        ⟨Except.ok Json.null, fun _ => Except.error (),
          fun _ => Except.error ()⟩ 5 = Except.ok [] ∧
    Except.map List.length (get_failing_tests
        ⟨Except.ok (Json.obj [("commits", Json.arr [Json.obj
            [("pr_number", Json.num 7),
              ("jobs", Json.arr [Json.obj
                [("conclusion", Json.str "failure"),
                  ("id", Json.num 1)]])]])]),
          fun _ => Except.ok (Json.obj [("file_path", Json.str "log.txt")]),
          fun _ => Except.ok (Json.obj [("test_results", Json.arr
            [Json.obj [("status", Json.str "failed")],
              Json.obj [("status", Json.str "failed")],
              Json.obj [("status", Json.str "failed")],
              Json.obj [("status", Json.str "failed")]])])⟩ 7) =
      Except.ok 4 :=
  ⟨rfl, rfl⟩
